import Mathlib

/-!
Verification development for the `frankmeza-anthropic-bot` repository:
a GitHub webhook bot that classifies issue/PR-comment intent, generates
content, and mutates target repositories (branch, file, pull request).

Go strings are modeled as `List Char` (the inputs of interest are ASCII,
where `strings.ToLower` agrees with `Char.toLower` character-wise).
Each definition in this file is a shallow embedding of one Go function,
named after it and annotated with its source location.  Outbound GitHub
and AI calls are modeled by an `Oracle` of call results, and handlers are
interpreted as functions from inputs and oracle to the list of outbound
GitHub operations they attempt, in order.
-/

set_option maxRecDepth 10000

/-- Coerce a Lean string literal to the `List Char` representation used
throughout the model. -/
def gs (s : String) : List Char := s.data

/-- Go `strings.Contains(s, sub)`: `sub` occurs as a contiguous substring. -/
def goContains (s sub : List Char) : Bool := decide (sub <:+: s)

/-- Go `strings.HasPrefix(s, p)` (argument order as in Go). -/
def goStartsWith (s p : List Char) : Bool := decide (p <+: s)

/-- Go `strings.HasSuffix(s, suf)`. -/
def goEndsWith (s suf : List Char) : Bool := decide (suf <:+ s)

/-- Go `strings.TrimPrefix(s, p)`: drop `p` when it starts `s`, else `s`. -/
def goTrimPre (s p : List Char) : List Char :=
  if goStartsWith s p then s.drop p.length else s

/-- Go `strings.TrimSuffix(s, suf)`. -/
def goTrimSuf (s suf : List Char) : List Char :=
  if goEndsWith s suf then s.take (s.length - suf.length) else s

/-- Go `strings.ToLower` restricted to ASCII. -/
def goToLower (s : List Char) : List Char := s.map Char.toLower

/-- Go `strings.TrimSpace`: strip whitespace from both ends. -/
def goTrimSpace (s : List Char) : List Char :=
  ((s.dropWhile Char.isWhitespace).reverse.dropWhile Char.isWhitespace).reverse

/-- Go `strings.ReplaceAll(s, old, new)` for single-character `old`/`new`. -/
def goReplaceAllCh (s : List Char) (o n : Char) : List Char :=
  s.map (fun c => if c = o then n else c)

/-- Go `strings.Split(s, sep)` for a single-character separator.  Always
returns a non-empty list; `Split("", sep) = [""]` as in Go. -/
def splitCh (sep : Char) : List Char → List (List Char)
  | [] => [[]]
  | c :: cs =>
    if c = sep then
      [] :: splitCh sep cs
    else
      match splitCh sep cs with
      | [] => [[c]]
      | h :: t => (c :: h) :: t

/-- Go `strings.Join(parts, sep)` for a single-character separator. -/
def joinCh (sep : Char) : List (List Char) → List Char
  | [] => []
  | [x] => x
  | x :: y :: t => x ++ sep :: joinCh sep (y :: t)

/-- Go `strings.Join(parts, sep)` for an arbitrary separator string. -/
def goJoinSep (sep : List Char) : List (List Char) → List Char
  | [] => []
  | [x] => x
  | x :: y :: t => x ++ sep ++ goJoinSep sep (y :: t)

/-- Go `strings.SplitN(s, ":", 2)` packaged as: the text before and after
the first colon, when a colon occurs. -/
def splitOnceCh (sep : Char) : List Char → Option (List Char × List Char)
  | [] => none
  | c :: cs =>
    if c = sep then
      some ([], cs)
    else
      match splitOnceCh sep cs with
      | none => none
      | some (a, b) => some (c :: a, b)

/-- Go `filepath.Base` for the paths this bot builds (non-empty, no
trailing separator): the part after the last `/`. -/
def goPathBase (s : List Char) : List Char :=
  (s.reverse.takeWhile (fun c => c != '/')).reverse

/-- Go `filepath.Join` for clean components: interleave `/`. -/
def goPathJoin (parts : List (List Char)) : List Char := joinCh '/' parts

/-- Go `fmt.Sprintf("%d", n)` for a natural number. -/
def natChars (n : Nat) : List Char := Nat.toDigits 10 n

/-- `truncate` from `src/pkg/bot-blog/handlers.go` lines 349-354 (same
code in `src/pkg/bot-code/handlers.go` lines 244-250). -/
def truncate (s : List Char) (length : Nat) : List Char :=
  if s.length ≤ length then s else s.take length ++ gs "..."

namespace SharedUtils

/-- `IsRuneAlphabetical` from `src/pkg/shared_utils/utils.go` lines 23-25. -/
def IsRuneAlphabetical (r : Char) : Bool := 'a' ≤ r && r ≤ 'z'

/-- `IsRuneNumerical` from `src/pkg/shared_utils/utils.go` lines 27-29. -/
def IsRuneNumerical (r : Char) : Bool := '0' ≤ r && r ≤ '9'

/-- `IsRuneDashCharacter` from `src/pkg/shared_utils/utils.go` lines 31-33. -/
def IsRuneDashCharacter (r : Char) : Bool := r = '-'

end SharedUtils

namespace BotBlog

/-- `generateKey` from `src/pkg/bot_blog/blog.go` lines 92-107: lowercase,
spaces to dashes, then keep a rune only when
`IsRuneDashCharacter || IsRuneNumerical || IsRuneDashCharacter` — the
alphabetical test is absent (the dash test is duplicated in the source). -/
def generateKey (title : List Char) : List Char :=
  let key := goReplaceAllCh (goToLower title) ' ' '-'
  key.filter (fun r =>
    SharedUtils.IsRuneDashCharacter r ||
    SharedUtils.IsRuneNumerical r ||
    SharedUtils.IsRuneDashCharacter r)

end BotBlog

namespace BotCodeU

/-- `generateFilename` from `src/pkg/bot_code/code.go` lines 120-136:
lowercase, spaces to underscores, then keep a rune only when
`IsRuneAlphabetical || IsRuneNumerical || IsRuneDashCharacter` — which
drops the just-inserted underscores. -/
def generateFilename (title : List Char) : List Char :=
  let filename := goReplaceAllCh (goToLower title) ' ' '_'
  (filename.filter (fun r =>
    SharedUtils.IsRuneAlphabetical r ||
    SharedUtils.IsRuneNumerical r ||
    SharedUtils.IsRuneDashCharacter r)) ++ gs ".go"

end BotCodeU

namespace BotCode

/-- `generateFilename` from `src/pkg/bot-code/code.go` lines 108-122:
lowercase, spaces to underscores, keep `[a-z0-9_]`. -/
def generateFilename (title : List Char) : List Char :=
  let filename := goReplaceAllCh (goToLower title) ' ' '_'
  (filename.filter (fun r =>
    ('a' ≤ r && r ≤ 'z') || ('0' ≤ r && r ≤ '9') || r = '_')) ++ gs ".go"

end BotCode

/-- Go `fmt.Sprintf("%t", b)`. -/
def boolChars (b : Bool) : List Char := if b then gs "true" else gs "false"

namespace BotBlog

/-- `BlogPostRequest` from `src/pkg/bot_blog/blog.go` lines 14-20. -/
structure BlogPostRequest where
  Draft : Bool
  Points : List (List Char)
  Tags : List (List Char)
  Title : List Char
  Topic : List Char

/-- The tag-scanning loop of `ParseIssueForRequest`
(`src/pkg/bot_blog/blog.go` lines 124-138): the first body line whose
trimmed lowercase form starts with `tags:` contributes
`strings.Split(strings.TrimPrefix(strings.ToLower(line), "tags:"), ",")`,
each piece trimmed; the loop breaks after the first such line. -/
def tagsFromLines : List (List Char) → List (List Char)
  | [] => []
  | line :: rest =>
    if goStartsWith (goToLower (goTrimSpace line)) (gs "tags:") then
      (splitCh ',' (goTrimPre (goToLower line) (gs "tags:"))).map goTrimSpace
    else
      tagsFromLines rest

/-- `ParseIssueForRequest` from `src/pkg/bot_blog/blog.go` lines 110-142.
Note the prefix strip is the case-sensitive `strings.TrimPrefix(title,
"Blog post:")`. -/
def ParseIssueForRequest (title body : List Char) : BlogPostRequest :=
  { Draft := true
    Points := []
    Tags := gs "ai-generated" ::
      (if goContains (goToLower body) (gs "tags:") then
        tagsFromLines (splitCh '\n' body)
      else
        [])
    Title := goTrimSpace (goTrimPre title (gs "Blog post:"))
    Topic := body }

/-- `Post` from `src/pkg/bot_blog/blog.go` lines 23-33 (`PostType` models
the Go field `Type`). -/
structure Post where
  Content : List Char
  CreatedAt : List Char
  IsDraft : Bool
  Key : List Char
  Language : List Char
  Summary : List Char
  Tags : List (List Char)
  Title : List Char
  PostType : List Char

/-- `NewPost` from `src/pkg/bot_blog/blog.go` lines 36-49, with the
impure `time.Now().Format(...)` value passed in as `now`. -/
def NewPost (title topic : List Char) (tags : List (List Char))
    (isDraft : Bool) (now : List Char) : Post :=
  { Content := []
    CreatedAt := now
    IsDraft := isDraft
    Key := generateKey title
    Language := gs "en"
    Summary := gs "A casual exploration of " ++ topic
    Tags := tags
    Title := title
    PostType := gs "post" }

/-- `Post.GetFilePath` from `src/pkg/bot_blog/blog.go` lines 52-60
(called `FilePath` at the `src/pkg/bot-blog/handlers.go` call site). -/
def GetFilePath (p : Post) : List Char :=
  goPathJoin [gs "pkg", gs "blog_markdown_content",
    (if p.IsDraft then gs "drafts" else gs "posts"), p.Key ++ gs ".md"]

/-- The `tags:` front-matter block of `GenerateMarkdown`
(`src/pkg/bot_blog/blog.go` lines 73-76). -/
def tagsBlock (tags : List (List Char)) : List Char :=
  tags.foldr (fun t acc => gs "  - " ++ t ++ gs "\n" ++ acc) []

/-- `Post.GenerateMarkdown` from `src/pkg/bot_blog/blog.go` lines 63-84
(called `ToMarkdown` at the `src/pkg/bot-blog/handlers.go` call site). -/
def GenerateMarkdown (p : Post) : List Char :=
  gs "---\n" ++
  gs "created_at: " ++ p.CreatedAt ++ gs "\n" ++
  gs "is_draft: " ++ boolChars p.IsDraft ++ gs "\n" ++
  gs "key: " ++ p.Key ++ gs "\n" ++
  gs "language: " ++ p.Language ++ gs "\n" ++
  gs "summary: " ++ p.Summary ++ gs "\n" ++
  gs "tags:\n" ++ tagsBlock p.Tags ++
  gs "title: " ++ p.Title ++ gs "\n" ++
  gs "type: " ++ p.PostType ++ gs "\n" ++
  gs "---\n\n" ++ p.Content

/-- The change-request vocabulary of `Handler.isChangeRequest`
(`src/pkg/bot-blog/handlers.go` lines 274-277). -/
def changeWords : List (List Char) :=
  [gs "can you", gs "could you", gs "please", gs "add", gs "remove",
   gs "change", gs "update", gs "make it", gs "make this", gs "more",
   gs "less", gs "fix", gs "improve", gs "rewrite"]

/-- `Handler.isChangeRequest` from `src/pkg/bot-blog/handlers.go`
lines 273-286. -/
def isChangeRequest (comment : List Char) : Bool :=
  changeWords.any (fun w => goContains (goToLower comment) w)

/-- `Handler.isDraftStatusChange` from `src/pkg/bot-blog/handlers.go`
lines 288-294. -/
def isDraftStatusChange (comment : List Char) : Bool :=
  goContains (goToLower comment) (gs "publish") ||
  goContains (goToLower comment) (gs "ready to publish") ||
  goContains (goToLower comment) (gs "move to draft") ||
  goContains (goToLower comment) (gs "make it a draft")

/-- The line-rewriting loop of `Handler.updateDraftStatus`
(`src/pkg/bot-blog/handlers.go` lines 299-304): the first line with
prefix `is_draft:` becomes `fmt.Sprintf("is_draft: %t", isDraft)`. -/
def updateDraftLines : List (List Char) → Bool → List (List Char)
  | [], _ => []
  | l :: ls, b =>
    if goStartsWith l (gs "is_draft:") then
      (gs "is_draft: " ++ boolChars b) :: ls
    else
      l :: updateDraftLines ls b

/-- `Handler.updateDraftStatus` from `src/pkg/bot-blog/handlers.go`
lines 296-307: split on newlines, rewrite the first `is_draft:` line,
join with newlines. -/
def updateDraftStatus (content : List Char) (isDraft : Bool) : List Char :=
  joinCh '\n' (updateDraftLines (splitCh '\n' content) isDraft)

/-- First fixed segment of the `generateTemplateContent` format string
(`src/pkg/bot-blog/handlers.go` lines 321-347): the text before the
first `%s` verb. -/
def tplSeg1 : List Char :=
  gs "\x7b.text-lg .text-gray-600 .mb-8\x7d\nHey there! Let\x27s dive into "

/-- Second fixed segment of the `generateTemplateContent` format string:
the text between the two `%s` verbs. -/
def tplSeg2 : List Char :=
  gs " - it\x27s one of those topics that\x27s both fascinating and practical.\n\n\x7b.text-base .mb-6\x7d\nSo what exactly are we talking about here? "

/-- Third fixed segment of the `generateTemplateContent` format string:
the text after the second `%s` verb. -/
def tplSeg3 : List Char :=
  gs " is something I\x27ve been exploring lately, and I thought it\x27d be fun to share some insights.\n\n\x7b.text-base .mb-6\x7d\nHere\x27s a quick example to get us started:\n\n~~~go\n// Simple example illustrating the concept\nfunc example() \x7b\n    fmt.Println(\"This is where we\x27d show some code!\")\n\x7d\n~~~\n\n\x7b.text-base .mb-6\x7d\nPretty neat, right? The cool thing about this approach is how it keeps things simple while still being powerful.\n\n\x7b.text-base .mb-6\x7d\nWhat I find interesting is how this connects to broader patterns in development. It\x27s not just about the technical details - it\x27s about building something that actually works well in practice.\n\n\x7b.text-base .mb-6\x7d\nHope this gives you some ideas to play around with! As always, feel free to reach out if you want to chat more about this stuff.\n"

/-- `Handler.generateTemplateContent` from `src/pkg/bot-blog/handlers.go`
lines 321-347: `fmt.Sprintf` over a fixed format whose two `%s` verbs
both receive `request.Topic`. -/
def generateTemplateContent (request : BlogPostRequest) : List Char :=
  tplSeg1 ++ request.Topic ++ tplSeg2 ++ request.Topic ++ tplSeg3

/-- `Handler.generatePRBody` from `src/pkg/bot-blog/handlers.go`
lines 309-319. -/
def generatePRBody (issueNumber : Nat) (post : Post) : List Char :=
  gs "🤖 AI-generated blog post based on issue #" ++ natChars issueNumber ++
  gs "\n\n**Title:** " ++ post.Title ++
  gs "\n**Summary:** " ++ post.Summary ++
  gs "\n**Tags:** " ++ goJoinSep (gs ", ") post.Tags ++
  gs "\n\nThis blog post was automatically generated. Feel free to comment with any changes you\x27d like me to make!\n\nCloses #" ++
  natChars issueNumber

end BotBlog

namespace BotCode

/-- `ChangeRequest` from `src/pkg/bot-code/code.go` lines 10-16. -/
structure ChangeRequest where
  Title : List Char
  Description : List Char
  FileType : List Char
  TargetPath : List Char
  Tags : List (List Char)

/-- The target-path scanning loop of `ParseIssueForCodeRequest`
(`src/pkg/bot-code/code.go` lines 32-44): every line whose trimmed
lowercase form starts with `file:` or `path:` overwrites the target path
with the trimmed text after the first colon (the loop has no break, so
the last matching line wins). -/
def targetPathFromLines (lines : List (List Char)) : List Char :=
  lines.foldl
    (fun acc line =>
      let lowerLine := goToLower (goTrimSpace line)
      if goStartsWith lowerLine (gs "file:") || goStartsWith lowerLine (gs "path:") then
        match splitOnceCh ':' line with
        | some (_, after) => goTrimSpace after
        | none => acc
      else
        acc)
    []

/-- `ParseIssueForCodeRequest` from `src/pkg/bot-code/code.go`
lines 18-48. -/
def ParseIssueForCodeRequest (title body : List Char) : ChangeRequest :=
  let cleanTitle := goTrimSpace (goTrimPre (goTrimSpace (goTrimPre title (gs "Code:"))) (gs "code:"))
  { Title := cleanTitle
    Description := body
    FileType := gs "go"
    TargetPath :=
      if goContains (goToLower body) (gs "file:") ||
          goContains (goToLower body) (gs "path:") then
        targetPathFromLines (splitCh '\n' body)
      else
        []
    Tags := [gs "ai-generated"] }

/-- `DetermineTargetPath` from `src/pkg/bot-code/code.go` lines 82-105. -/
def DetermineTargetPath (request : ChangeRequest) : List Char :=
  if request.TargetPath ≠ [] then
    request.TargetPath
  else
    let title := goToLower request.Title
    if goContains title (gs "handler") then
      gs "pkg/bot-code/handlers.go"
    else if goContains title (gs "client") then
      gs "pkg/bot-code/client.go"
    else if goContains title (gs "test") then
      gs "pkg/bot-code/code_test.go"
    else
      goPathJoin [gs "pkg", gs "bot-code", generateFilename request.Title]

/-- `GenerateCommitMessage` from `src/pkg/bot-code/code.go` lines 125-127. -/
def GenerateCommitMessage (request : ChangeRequest) (action : List Char) : List Char :=
  action ++ gs ": " ++ request.Title

/-- `Handler.isCodeRequest` from `src/pkg/bot-code/handlers.go`
lines 207-214. -/
def isCodeRequest (title : List Char) : Bool :=
  goContains (goToLower title) (gs "code:") ||
  goContains (goToLower title) (gs "add feature") ||
  goContains (goToLower title) (gs "refactor") ||
  goContains (goToLower title) (gs "implement")

/-- The change-request vocabulary of the code handler
(`src/pkg/bot-code/handlers.go` lines 217-220). -/
def changeWords : List (List Char) :=
  [gs "can you", gs "could you", gs "please", gs "add", gs "remove",
   gs "change", gs "update", gs "make it", gs "make this", gs "more",
   gs "less", gs "fix", gs "improve", gs "rewrite", gs "refactor"]

/-- `Handler.isChangeRequest` from `src/pkg/bot-code/handlers.go`
lines 216-231. -/
def isChangeRequest (comment : List Char) : Bool :=
  changeWords.any (fun w => goContains (goToLower comment) w)

/-- `Handler.generatePRBody` from `src/pkg/bot-code/handlers.go`
lines 233-242 (its description verb receives `*issue.Title`). -/
def generatePRBody (issueNumber : Nat) (issueTitle filePath : List Char) : List Char :=
  gs "🤖 AI-generated code change based on issue #" ++ natChars issueNumber ++
  gs "\n\n**File:** " ++ filePath ++
  gs "\n**Description:** " ++ issueTitle ++
  gs "\n\nThis code was automatically generated. Feel free to comment with any changes you\x27d like me to make!\n\nCloses #" ++
  natChars issueNumber

end BotCode

/-- The observable outcome of a webhook HTTP handler: the status code it
writes and whether it reached the event-dispatch switch (from which
classification, generation, and repository mutation proceed). -/
structure GateOutcome where
  status : Nat
  dispatched : Bool
deriving DecidableEq

/-- An inbound webhook delivery, abstracted to the three properties the
transport gates test: whether its signature verifies against the
configured secret, whether its body can be read, and whether its payload
parses as a webhook event. -/
structure Delivery where
  sigValid : Bool
  bodyReadable : Bool
  parses : Bool

/-- The transport gate of the blog workflow, `Handler.HandleWebhook` from
`src/pkg/bot-blog/handlers.go` lines 36-67: `github.ValidatePayload`
failure answers 401 and returns; `github.ParseWebHook` failure answers
400 and returns; otherwise the event is dispatched and 200 written. -/
def blogHandleWebhook (d : Delivery) : GateOutcome :=
  if d.sigValid = false then
    { status := 401, dispatched := false }
  else if d.parses = false then
    { status := 400, dispatched := false }
  else
    { status := 200, dispatched := true }

/-- The transport gate of the code workflow, `Handler.HandleWebhook` from
`src/pkg/bot-code/handlers.go` lines 36-75: the `github.ValidatePayload`
call is commented out ("Temporarily skip validation for debugging") and
the body is read directly, so the signature is never consulted; a body
read failure answers 400, a parse failure answers 400, and otherwise the
event is dispatched and 200 written. -/
def codeHandleWebhook (d : Delivery) : GateOutcome :=
  if d.bodyReadable = false then
    { status := 400, dispatched := false }
  else if d.parses = false then
    { status := 400, dispatched := false }
  else
    { status := 200, dispatched := true }

/-- `contains` from `src/unnamed/part_008` lines 187-190:
`len(s) > 0 && len(substr) > 0 && (s == substr ||
s[len(s)-len(substr):] == substr)`.  The slice expression panics in Go
when `len(substr) > len(s)` (negative low bound), which is modeled as
`none`; `some b` models normal return of `b`. -/
def routerContains (s substr : List Char) : Option Bool :=
  if s.length > 0 then
    if substr.length > 0 then
      if s = substr then
        some true
      else if substr.length ≤ s.length then
        some (decide (s.drop (s.length - substr.length) = substr))
      else
        none
    else
      some false
  else
    some false

/-- The three routing outcomes of `router.HandleWebhook`
(`src/unnamed/part_008` lines 119-131): dispatch to the blog handler,
dispatch to the code handler, or the `default` branch that writes 200
and drops the event. -/
inductive RouteTarget where
  | blog
  | code
  | unknown
deriving DecidableEq

/-- The routing switch of `router.HandleWebhook` from
`src/unnamed/part_008` lines 119-131: try `contains(repoName,
repoWebsite)` first, then `contains(repoName, repoBot)`, else the 200
no-op fallback.  `none` propagates a panic of `contains`. -/
def routeRepo (repoName repoWebsite repoBot : List Char) : Option RouteTarget :=
  match routerContains repoName repoWebsite with
  | none => none
  | some true => some RouteTarget.blog
  | some false =>
    match routerContains repoName repoBot with
    | none => none
    | some true => some RouteTarget.code
    | some false => some RouteTarget.unknown

/-- The spec-side repository matcher, modeled from the spec sentence
"matches it by exact equality or trailing-suffix equality against each
configured repository identifier". -/
def specMatches (name id : List Char) : Bool :=
  decide (name = id ∨ id <:+ name)

/-- One outbound GitHub call attempted by a handler, with the arguments
the wrapped client of `src/pkg/bot-github/client.go` receives (the
constant `owner`/`repo` pair is omitted; reads are oracle queries, not
trace entries). -/
inductive GhOp where
  | createBranch (branch : List Char)
  | createFile (branch path content message : List Char)
  | updateFile (branch path content message sha : List Char)
  | deleteFile (branch path message sha : List Char)
  | createPR (title body head base : List Char)
  | commentIssue (issue : Nat) (message : List Char)
  | commentPR (pr : Nat) (message : List Char)
  | reactIssue (issue : Nat) (emoji : List Char)
  | reactPRComment (commentId : Nat) (emoji : List Char)
deriving DecidableEq

/-- The kind of a GitHub operation, forgetting its arguments. -/
inductive OpKind where
  | branchK
  | fileK
  | updateK
  | deleteK
  | prK
  | commentIssueK
  | commentPRK
  | reactIssueK
  | reactPRK
deriving DecidableEq

/-- Project a GitHub operation to its kind. -/
def kindOf : GhOp → OpKind
  | GhOp.createBranch _ => OpKind.branchK
  | GhOp.createFile _ _ _ _ => OpKind.fileK
  | GhOp.updateFile _ _ _ _ _ => OpKind.updateK
  | GhOp.deleteFile _ _ _ _ => OpKind.deleteK
  | GhOp.createPR _ _ _ _ => OpKind.prK
  | GhOp.commentIssue _ _ => OpKind.commentIssueK
  | GhOp.commentPR _ _ => OpKind.commentPRK
  | GhOp.reactIssue _ _ => OpKind.reactIssueK
  | GhOp.reactPRComment _ _ => OpKind.reactPRK

/-- Whether an operation is a user-facing comment (on the issue or PR). -/
def isUserComment (op : GhOp) : Bool :=
  match op with
  | GhOp.commentIssue _ _ => true
  | GhOp.commentPR _ _ => true
  | _ => false

/-- Whether an operation mutates repository content or refs (branch,
file write/update/delete, pull request). -/
def isMutationOp (op : GhOp) : Bool :=
  match op with
  | GhOp.createBranch _ => true
  | GhOp.createFile _ _ _ _ => true
  | GhOp.updateFile _ _ _ _ _ => true
  | GhOp.deleteFile _ _ _ _ => true
  | GhOp.createPR _ _ _ _ => true
  | _ => false

/-- Results of the outbound calls a handler may make, fixed up front:
AI generation/modification results (`none` = failure or empty response),
read results, success of each repository write, and the impure values a
run consumes (current time, configured owner, PR head branch, event
numbers). -/
structure Oracle where
  genBlog : Option (List Char)
  genCode : Option (List Char)
  aiModify : Option (List Char)
  listFiles : Option (List (List Char))
  getFile : Option (List Char × List Char)
  createBranchOk : Bool
  createFileOk : Bool
  updateFileOk : Bool
  deleteFileOk : Bool
  createPROk : Bool
  now : List Char
  owner : List Char
  prBranch : List Char
  issueNum : Nat
  prNum : Nat
  commentId : Nat

/-- The file filter of the blog PR-comment loops
(`src/pkg/bot-blog/handlers.go` lines 181-183 and 222-224): a `.md` file
under the posts or drafts directory. -/
def isBlogMdFile (f : List Char) : Bool :=
  goEndsWith f (gs ".md") &&
  (goContains f (gs "pkg/blog_markdown_content/posts") ||
   goContains f (gs "pkg/blog_markdown_content/drafts"))

/-- `shouldPublish` from `Handler.handleDraftStatusChange`
(`src/pkg/bot-blog/handlers.go` lines 212-213). -/
def draftShouldPublish (comment : List Char) : Bool :=
  goContains (goToLower comment) (gs "publish") ||
  goContains (goToLower comment) (gs "ready to publish")

/-- The new path computed by `Handler.handleDraftStatusChange`
(`src/pkg/bot-blog/handlers.go` lines 235-242): strip `.md` from the
base name and rebuild under `posts` or `drafts`. -/
def draftNewFilename (file : List Char) (shouldPublish : Bool) : List Char :=
  let baseName := goTrimSuf (goPathBase file) (gs ".md")
  if shouldPublish then
    goPathJoin [gs "pkg", gs "blog_markdown_content", gs "posts", baseName ++ gs ".md"]
  else
    goPathJoin [gs "pkg", gs "blog_markdown_content", gs "drafts", baseName ++ gs ".md"]

/-- Commit message of the lifecycle move
(`src/pkg/bot-blog/handlers.go` line 245). -/
def moveMsg (shouldPublish : Bool) : List Char :=
  gs "Move blog post to " ++ (if shouldPublish then gs "published" else gs "draft")

/-- Success comment of the lifecycle move
(`src/pkg/bot-blog/handlers.go` lines 256-257). -/
def moveDoneMsg (shouldPublish : Bool) : List Char :=
  gs "✅ Blog post " ++
  (if shouldPublish then gs "published" else gs "moved to drafts") ++ gs "!"

/-- The file loop of `Handler.handleDraftStatusChange`
(`src/pkg/bot-blog/handlers.go` lines 221-261): on the first matching
file, fetch content, rewrite `is_draft`, create the file at the new
path, delete the old file, comment success, break; any step failure
returns the error.  Result: (operations attempted, success). -/
def draftLoop (sp : Bool) (o : Oracle) : List (List Char) → List GhOp × Bool
  | [] => ([], true)
  | f :: fs =>
    if isBlogMdFile f then
      match o.getFile with
      | none => ([], false)
      | some (content, sha) =>
        let updated := BotBlog.updateDraftStatus content (!sp)
        let newF := draftNewFilename f sp
        let createOp := GhOp.createFile o.prBranch newF updated (moveMsg sp)
        if o.createFileOk = false then
          ([createOp], false)
        else
          let deleteOp := GhOp.deleteFile o.prBranch f (gs "Remove old blog post file") sha
          if o.deleteFileOk = false then
            ([createOp, deleteOp], false)
          else
            ([createOp, deleteOp, GhOp.commentPR o.prNum (moveDoneMsg sp)], true)
    else
      draftLoop sp o fs

/-- `Handler.handleDraftStatusChange` from `src/pkg/bot-blog/handlers.go`
lines 211-264. -/
def handleDraftStatusChangeRun (comment : List Char) (o : Oracle) : List GhOp × Bool :=
  match o.listFiles with
  | none => ([], false)
  | some files => draftLoop (draftShouldPublish comment) o files

/-- The file loop of `Handler.handleContentChange`
(`src/pkg/bot-blog/handlers.go` lines 180-205): on the first matching
file, fetch content, ask the AI to modify it, update the file, break. -/
def contentLoop (changeRequest : List Char) (o : Oracle) : List (List Char) → List GhOp × Bool
  | [] => ([], true)
  | f :: fs =>
    if isBlogMdFile f then
      match o.getFile with
      | none => ([], false)
      | some (_content, sha) =>
        match o.aiModify with
        | none => ([], false)
        | some updated =>
          let msg := gs "Update blog post based on feedback: " ++ truncate changeRequest 50
          ([GhOp.updateFile o.prBranch f updated msg sha], o.updateFileOk)
    else
      contentLoop changeRequest o fs

/-- `Handler.handleContentChange` from `src/pkg/bot-blog/handlers.go`
lines 172-208. -/
def handleContentChangeRun (changeRequest : List Char) (o : Oracle) : List GhOp × Bool :=
  match o.listFiles with
  | none => ([], false)
  | some files => contentLoop changeRequest o files

/-- The classification a blog PR comment receives in
`Handler.handlePRComment` (`src/pkg/bot-blog/handlers.go` lines 150-168):
the draft-status test runs first and returns, so a lifecycle comment is
never also treated as a content change. -/
inductive PRAction where
  | noAction
  | lifecycle (publish : Bool)
  | contentChange
deriving DecidableEq

/-- The dispatch decision of `Handler.handlePRComment`
(`src/pkg/bot-blog/handlers.go` lines 150-168), with the lifecycle
direction as computed inside `handleDraftStatusChange`. -/
def prCommentAction (comment : List Char) : PRAction :=
  if BotBlog.isDraftStatusChange comment then
    PRAction.lifecycle (draftShouldPublish comment)
  else if BotBlog.isChangeRequest comment then
    PRAction.contentChange
  else
    PRAction.noAction

/-- `Handler.handlePRComment` from `src/pkg/bot-blog/handlers.go`
lines 142-169: acknowledge with a reaction; a draft-status comment runs
only the lifecycle path (an error there is only logged); otherwise a
change request runs the content path, commenting an apology on failure
and reacting with a rocket on success. -/
def handlePRCommentRun (comment : List Char) (o : Oracle) : List GhOp :=
  let ack := [GhOp.reactPRComment o.commentId (gs "👍")]
  if BotBlog.isDraftStatusChange comment then
    ack ++ (handleDraftStatusChangeRun comment o).1
  else if BotBlog.isChangeRequest comment then
    let r := handleContentChangeRun comment o
    if r.2 = false then
      ack ++ r.1 ++
        [GhOp.commentPR o.prNum (gs "Sorry, I had trouble making that change. Could you be more specific?")]
    else
      ack ++ r.1 ++ [GhOp.reactPRComment o.commentId (gs "🚀")]
  else
    ack

/-- The content used by `createBlogPostPR`
(`src/pkg/bot-blog/handlers.go` lines 96-107): the AI result, or on
generation failure the local template. -/
def blogGenContent (request : BotBlog.BlogPostRequest) (o : Oracle) : List Char :=
  match o.genBlog with
  | some c => c
  | none => BotBlog.generateTemplateContent request

/-- `Handler.createBlogPostPR` from `src/pkg/bot-blog/handlers.go`
lines 94-139: generate (with template fallback), then create branch,
create file, create PR, each step attempted only after the previous one
succeeded.  Result: (operations attempted, success). -/
def createBlogPostPRRun (request : BotBlog.BlogPostRequest) (o : Oracle) : List GhOp × Bool :=
  let content := blogGenContent request o
  let post0 := BotBlog.NewPost request.Title request.Topic request.Tags request.Draft o.now
  let post := { post0 with Content := content }
  let branchName := gs "ai-blog-post-" ++ natChars o.issueNum
  let t1 := [GhOp.createBranch branchName]
  if o.createBranchOk = false then
    (t1, false)
  else
    let filename := BotBlog.GetFilePath post
    let markdown := BotBlog.GenerateMarkdown post
    let t2 := t1 ++ [GhOp.createFile branchName filename markdown (gs "Add AI-generated blog post")]
    if o.createFileOk = false then
      (t2, false)
    else
      let prTitle := gs "Add blog post: " ++ post.Title
      let prBody := BotBlog.generatePRBody o.issueNum post
      let head := o.owner ++ ':' :: branchName
      let t3 := t2 ++ [GhOp.createPR prTitle prBody head (gs "main")]
      if o.createPROk = false then
        (t3, false)
      else
        (t3, true)

/-- `Handler.handleNewIssue` from `src/pkg/bot-blog/handlers.go`
lines 70-91: bail out unless the lowercased title contains "blog post";
acknowledge with a reaction, parse the request, build the PR; on
failure comment an apology on the issue. -/
def handleNewIssueBlogRun (title body : List Char) (o : Oracle) : List GhOp :=
  if goContains (goToLower title) (gs "blog post") = false then
    []
  else
    let ack := [GhOp.reactIssue o.issueNum (gs "👍")]
    let request := BotBlog.ParseIssueForRequest title body
    let r := createBlogPostPRRun request o
    if r.2 = false then
      ack ++ r.1 ++
        [GhOp.commentIssue o.issueNum (gs "Sorry, I ran into an error creating the blog post. Could you check the request format?")]
    else
      ack ++ r.1

/-- `Handler.createCodeChangePR` from `src/pkg/bot-code/handlers.go`
lines 101-145: generation failure aborts before any repository call;
otherwise create branch, create file, create PR in strict order. -/
def createCodeChangePRRun (request : BotCode.ChangeRequest) (issueTitle : List Char) (o : Oracle) : List GhOp × Bool :=
  match o.genCode with
  | none => ([], false)
  | some content =>
    let targetPath := BotCode.DetermineTargetPath request
    let message := BotCode.GenerateCommitMessage request (gs "Add")
    let branchName := gs "ai-code-change-" ++ natChars o.issueNum
    let t1 := [GhOp.createBranch branchName]
    if o.createBranchOk = false then
      (t1, false)
    else
      let t2 := t1 ++ [GhOp.createFile branchName targetPath content message]
      if o.createFileOk = false then
        (t2, false)
      else
        let prTitle := gs "Add code: " ++ request.Title
        let prBody := BotCode.generatePRBody o.issueNum issueTitle targetPath
        let head := o.owner ++ ':' :: branchName
        let t3 := t2 ++ [GhOp.createPR prTitle prBody head (gs "main")]
        if o.createPROk = false then
          (t3, false)
        else
          (t3, true)

/-- `Handler.HandleNewIssue` from `src/pkg/bot-code/handlers.go`
lines 78-98: bail out unless the title is a code request; acknowledge
with a reaction, parse, build the PR; on failure comment an apology. -/
def handleNewIssueCodeRun (title body : List Char) (o : Oracle) : List GhOp :=
  if BotCode.isCodeRequest title = false then
    []
  else
    let ack := [GhOp.reactIssue o.issueNum (gs "+1")]
    let request := BotCode.ParseIssueForCodeRequest title body
    let r := createCodeChangePRRun request title o
    if r.2 = false then
      ack ++ r.1 ++
        [GhOp.commentIssue o.issueNum (gs "Sorry, I ran into an error creating the code change. Could you check the request format?")]
    else
      ack ++ r.1

/-- Fixture oracle for concrete evaluations: every outbound call
succeeds, and a draft blog file is in the PR. -/
def oAllOk : Oracle :=
  { genBlog := some (gs "Generated body.")
    genCode := some (gs "package demo")
    aiModify := some (gs "modified body")
    listFiles := some [gs "pkg/blog_markdown_content/drafts/foo.md"]
    getFile := some (gs "is_draft: true", gs "sha1")
    createBranchOk := true
    createFileOk := true
    updateFileOk := true
    deleteFileOk := true
    createPROk := true
    now := gs "2025-01-01"
    owner := gs "frankmeza"
    prBranch := gs "ai-blog-post-7"
    issueNum := 7
    prNum := 3
    commentId := 11 }

/-- Fixture oracle: both AI generation calls fail, repository writes
succeed. -/
def oGenFail : Oracle :=
  { oAllOk with genBlog := none, genCode := none }

/-- Fixture oracle: the file-write step fails while everything before it
succeeds. -/
def oFileFail : Oracle :=
  { oAllOk with createFileOk := false }

/-- Fixture oracle: the PR already contains a published blog file and
every outbound call succeeds. -/
def oPostsFile : Oracle :=
  { oAllOk with listFiles := some [gs "pkg/blog_markdown_content/posts/foo.md"] }

/-- Fixture oracle: the AI modification call fails, everything else
succeeds. -/
def oModifyFail : Oracle :=
  { oAllOk with aiModify := none }

/-- Fixture blog request for concrete evaluations. -/
def reqBlogW : BotBlog.BlogPostRequest :=
  { Draft := true
    Points := []
    Tags := [gs "ai-generated"]
    Title := gs "Demo"
    Topic := gs "topic" }

/-- Fixture code change request for concrete evaluations. -/
def reqCodeW : BotCode.ChangeRequest :=
  BotCode.ParseIssueForCodeRequest (gs "Code: Add limiter") (gs "")

/-- The blog-side directory prefixes of the lifecycle move, including
the trailing separator. -/
def blogDirOf (shouldPublish : Bool) : List Char :=
  if shouldPublish then
    gs "pkg/blog_markdown_content/posts/"
  else
    gs "pkg/blog_markdown_content/drafts/"

theorem goContains_mono {s sub1 sub2 : List Char} (h12 : sub1 <:+: sub2)
    (h : goContains s sub2 = true) : goContains s sub1 = true := by
  simp only [goContains, decide_eq_true_eq] at *
  exact h12.trans h

/-- C1: the spec claims that in both workflows a malformed or
unverifiable webhook delivery is answered with a client-error status and
processed no further.  The blog gate does so, but the code workflow
(`src/pkg/bot-code/handlers.go` lines 36-53) has its signature check
commented out ("Temporarily skip validation for debugging"): a delivery
with an invalid signature and a well-formed payload is answered 200 and
dispatched to classification and mutation.  This theorem evaluates both
gates at that failing input. -/
theorem c1_code_gate_skips_signature :
    codeHandleWebhook { sigValid := false, bodyReadable := true, parses := true } =
      { status := 200, dispatched := true } ∧
    blogHandleWebhook { sigValid := false, bodyReadable := true, parses := true } =
      { status := 401, dispatched := false } ∧
    codeHandleWebhook { sigValid := true, bodyReadable := true, parses := false } =
      { status := 400, dispatched := false } := by
  decide

/-- C3: the spec claims the slug keeps exactly the characters in
`[a-z0-9-]` (letters retained by `generateKey`, the space separator
retained by `generateFilename`).  The code drops both: `generateKey`
(`src/pkg/bot_blog/blog.go` lines 98-103) never tests for letters (its
dash test is duplicated where the alphabetical test belongs, against its
own comment "keep only alphanumeric and hyphens"), and `generateFilename`
(`src/pkg/bot_code/code.go` lines 127-133) filters out the underscores
it just inserted for spaces.  Evaluation at the spec example title. -/
theorem c3_slug_filters_wrong :
    BotBlog.generateKey (gs "Add Feature: Rate Limiting!") = gs "---" ∧
    BotBlog.generateKey (gs "Add Feature: Rate Limiting!") ≠ gs "add-feature-rate-limiting" ∧
    BotCodeU.generateFilename (gs "Add Feature: Rate Limiting!") = gs "addfeatureratelimiting.go" ∧
    BotCodeU.generateFilename (gs "Add Feature: Rate Limiting!") ≠ gs "add_feature_rate_limiting.go" := by
  decide

/-- C5: a PR comment in the lifecycle vocabulary runs only the lifecycle
path (`handlePRComment` returns right after `handleDraftStatusChange`,
`src/pkg/bot-blog/handlers.go` lines 150-156), and any comment containing
"ready to publish" is classified as a lifecycle transition to Published
(`shouldPublish` is true because such a comment contains "publish"). -/
theorem c5_lifecycle_priority (comment : List Char) :
    (BotBlog.isDraftStatusChange comment = true →
      prCommentAction comment ≠ PRAction.contentChange) ∧
    (goContains (goToLower comment) (gs "ready to publish") = true →
      prCommentAction comment = PRAction.lifecycle true) := by
  constructor
  · intro h
    simp [prCommentAction, h]
  · intro h
    have hpub : goContains (goToLower comment) (gs "publish") = true :=
      goContains_mono (by decide) h
    have hd : BotBlog.isDraftStatusChange comment = true := by
      simp [BotBlog.isDraftStatusChange, hpub]
    have hsp : draftShouldPublish comment = true := by
      simp [draftShouldPublish, hpub]
    simp [prCommentAction, hd, hsp]

/-- C5 witness: the spec scenario comment "Ready to publish!" is
classified as a lifecycle transition to Published and not as a content
change. -/
theorem c5_witness :
    prCommentAction (gs "Ready to publish!") ≠ PRAction.contentChange ∧
    prCommentAction (gs "Ready to publish!") = PRAction.lifecycle true :=
  ⟨(c5_lifecycle_priority (gs "Ready to publish!")).1 (by decide),
   (c5_lifecycle_priority (gs "Ready to publish!")).2 (by decide)⟩

theorem routerContains_eq_specMatches (s sub : List Char) (hsub : 0 < sub.length)
    (hlen : s = [] ∨ sub.length ≤ s.length) :
    routerContains s sub = some (specMatches s sub) := by
  rcases hlen with h | h
  · subst h
    have hne : ¬ ([] : List Char) = sub := by
      intro e
      rw [← e] at hsub
      exact Nat.lt_irrefl 0 hsub
    have hns : ¬ sub <:+ ([] : List Char) := by
      intro hsuf
      exact hne (List.suffix_nil.mp hsuf).symm
    simp [routerContains, specMatches, hne, hns]
  · have hs : 0 < s.length := Nat.lt_of_lt_of_le hsub h
    by_cases he : s = sub
    · subst he
      simp [routerContains, specMatches, hs]
    · have hiff : (s.drop (s.length - sub.length) = sub) ↔ sub <:+ s := by
        rw [List.suffix_iff_eq_drop]
        exact eq_comm
      unfold routerContains specMatches
      rw [if_pos hs, if_pos hsub, if_neg he, if_pos h]
      congr 1
      rw [decide_eq_decide]
      constructor
      · intro hd
        exact Or.inr (hiff.mp hd)
      · intro hd
        rcases hd with hd | hd
        · exact absurd hd he
        · exact hiff.mpr hd

/-- C2 amended: given non-empty configured identifiers (enforced at
startup, `src/cmd/main/main.go`), routing is deterministic and matches
the repository full name by exact or trailing-suffix equality against
the blog identifier and then the code identifier, falling through to the
200 no-op `unknown` branch — provided the name is empty or at least as
long as both identifiers.  (Outside that proviso `contains` panics; see
the counterexample.) -/
theorem c2_routing_deterministic (name web bot : List Char)
    (hweb : 0 < web.length) (hbot : 0 < bot.length)
    (hlen : name = [] ∨ (web.length ≤ name.length ∧ bot.length ≤ name.length)) :
    routeRepo name web bot =
      some (if specMatches name web then RouteTarget.blog
            else if specMatches name bot then RouteTarget.code
            else RouteTarget.unknown) := by
  have hw : routerContains name web = some (specMatches name web) := by
    apply routerContains_eq_specMatches name web hweb
    rcases hlen with h | h
    · exact Or.inl h
    · exact Or.inr h.1
  have hb : routerContains name bot = some (specMatches name bot) := by
    apply routerContains_eq_specMatches name bot hbot
    rcases hlen with h | h
    · exact Or.inl h
    · exact Or.inr h.2
  by_cases h1 : specMatches name web = true
  · simp [routeRepo, hw, h1]
  · have h1f : specMatches name web = false := by
      cases hval : specMatches name web
      · rfl
      · exact absurd hval h1
    by_cases h2 : specMatches name bot = true
    · simp [routeRepo, hw, hb, h1f, h2]
    · have h2f : specMatches name bot = false := by
        cases hval : specMatches name bot
        · rfl
        · exact absurd hval h2
      simp [routeRepo, hw, hb, h1f, h2f]

theorem routerContains_none_iff (s sub : List Char) :
    routerContains s sub = none ↔
      (0 < s.length ∧ 0 < sub.length ∧ s ≠ sub ∧ s.length < sub.length) := by
  constructor
  · intro h
    by_cases hs : s.length > 0
    · by_cases hsub : sub.length > 0
      · by_cases he : s = sub
        · rw [routerContains, if_pos hs, if_pos hsub, if_pos he] at h
          simp at h
        · by_cases hle : sub.length ≤ s.length
          · rw [routerContains, if_pos hs, if_pos hsub, if_neg he, if_pos hle] at h
            simp at h
          · exact ⟨hs, hsub, he, by omega⟩
      · rw [routerContains, if_pos hs, if_neg hsub] at h
        simp at h
    · rw [routerContains, if_neg hs] at h
      simp at h
  · rintro ⟨hs, hsub, he, hlt⟩
    rw [routerContains, if_pos hs, if_pos hsub, if_neg he,
      if_neg (by omega : ¬ sub.length ≤ s.length)]

/-- C2 counterexample: the claim states that routing never errors or
panics for any repository name, including names shorter than a
configured identifier, or empty.  The repository name "a" is non-empty
and strictly shorter than the blog identifier "ab", so the claim demands
a normal 200-or-dispatch outcome for it; instead the Go expression
`s[len(s)-len(substr):]` in `contains` slices with a negative low bound
and panics, and the whole routing switch panics with it — modeled as
`none` exactly at Go's panic condition (`routerContains_none_iff`). -/
theorem c2_counterexample :
    (gs "a") ≠ [] ∧
    (gs "a").length < (gs "ab").length ∧
    routerContains (gs "a") (gs "ab") = none ∧
    routeRepo (gs "a") (gs "ab") (gs "b") = none := by
  decide

/-- C2 witness: routing a real event repository name against non-empty,
shorter identifiers matches the blog identifier by trailing suffix. -/
theorem c2_witness :
    routeRepo (gs "frankmeza/website") (gs "website") (gs "bot-repo") =
      some RouteTarget.blog := by
  have h := c2_routing_deterministic (gs "frankmeza/website") (gs "website")
    (gs "bot-repo") (by decide) (by decide) (Or.inr (by decide))
  rw [h]
  decide

/-- C7: in both workflows the mutation steps of an accepted issue run
strictly in order — the attempted operations are always a prefix of
[CreateBranch, CreateFile, CreatePullRequest] (hence no rollback
operation ever appears), the blog run always attempts CreateBranch
first, CreateFile is attempted only when CreateBranch succeeded, and
CreatePullRequest only when both predecessors succeeded. -/
theorem c7_mutation_steps_sequential (reqB : BotBlog.BlogPostRequest)
    (reqC : BotCode.ChangeRequest) (titleC : List Char) (o : Oracle) :
    ((createBlogPostPRRun reqB o).1.map kindOf) <+:
      [OpKind.branchK, OpKind.fileK, OpKind.prK] ∧
    ((createBlogPostPRRun reqB o).1.map kindOf).take 1 = [OpKind.branchK] ∧
    (OpKind.fileK ∈ (createBlogPostPRRun reqB o).1.map kindOf →
      o.createBranchOk = true) ∧
    (OpKind.prK ∈ (createBlogPostPRRun reqB o).1.map kindOf →
      o.createBranchOk = true ∧ o.createFileOk = true) ∧
    ((createCodeChangePRRun reqC titleC o).1.map kindOf) <+:
      [OpKind.branchK, OpKind.fileK, OpKind.prK] ∧
    (OpKind.fileK ∈ (createCodeChangePRRun reqC titleC o).1.map kindOf →
      o.createBranchOk = true) ∧
    (OpKind.prK ∈ (createCodeChangePRRun reqC titleC o).1.map kindOf →
      o.createBranchOk = true ∧ o.createFileOk = true) := by
  rcases o with ⟨gb, gc, am, lf, gf, cb, cf, uf, df, cp, now, own, prb, inum, pnum, cid⟩
  cases cb <;> cases cf <;> cases cp <;> rcases gc with _ | c <;>
    simp [createBlogPostPRRun, createCodeChangePRRun, kindOf]

/-- C7 witness: with every call succeeding, the pull-request step of the
blog run is reached, so both predecessor steps must have succeeded. -/
theorem c7_witness :
    oAllOk.createBranchOk = true ∧ oAllOk.createFileOk = true :=
  (c7_mutation_steps_sequential reqBlogW reqCodeW (gs "Code: Add limiter") oAllOk).2.2.2.1
    (by decide)

/-- C9: when content generation fails, the blog run substitutes the
deterministic local template — whose text contains the request topic
twice — and still begins the branch/file/PR mutation sequence, while the
code run performs no repository operation at all and the code new-issue
handler surfaces the failure as a comment on the originating issue
(after the acknowledgement reaction). -/
theorem c9_generation_failure_asymmetry (req : BotBlog.BlogPostRequest)
    (reqC : BotCode.ChangeRequest) (title body : List Char) (o : Oracle)
    (hB : o.genBlog = none) (hC : o.genCode = none) :
    (∃ p q r, blogGenContent req o = p ++ req.Topic ++ q ++ req.Topic ++ r) ∧
    ((createBlogPostPRRun req o).1.map kindOf).take 1 = [OpKind.branchK] ∧
    createCodeChangePRRun reqC title o = ([], false) ∧
    (BotCode.isCodeRequest title = true →
      handleNewIssueCodeRun title body o =
        [GhOp.reactIssue o.issueNum (gs "+1"),
         GhOp.commentIssue o.issueNum
           (gs "Sorry, I ran into an error creating the code change. Could you check the request format?")]) := by
  refine ⟨⟨BotBlog.tplSeg1, BotBlog.tplSeg2, BotBlog.tplSeg3, ?_⟩, ?_, ?_, ?_⟩
  · simp [blogGenContent, hB, BotBlog.generateTemplateContent]
  · cases hcb : o.createBranchOk <;> cases hcf : o.createFileOk <;>
      cases hcp : o.createPROk <;>
      simp [createBlogPostPRRun, hcb, hcf, hcp, kindOf]
  · simp [createCodeChangePRRun, hC]
  · intro hcode
    simp [handleNewIssueCodeRun, hcode, createCodeChangePRRun, hC]

/-- C9 witness: at a concrete oracle whose generation calls fail and a
concrete code-request title, the hypotheses of the asymmetry theorem
hold. -/
theorem c9_witness :
    handleNewIssueCodeRun (gs "Code: Add limiter") (gs "body") oGenFail =
      [GhOp.reactIssue 7 (gs "+1"),
       GhOp.commentIssue 7
         (gs "Sorry, I ran into an error creating the code change. Could you check the request format?")] := by
  have h := c9_generation_failure_asymmetry reqBlogW reqCodeW (gs "Code: Add limiter")
    (gs "body") oGenFail (by decide) (by decide)
  exact h.2.2.2 (by decide)

/-- C8 amended: a title containing "Blog post:" in any letter case (and
no code keyword) is classified blog-actionable and the parsed request
always carries the tag "ai-generated"; but `ParseIssueForRequest` strips
the prefix with the case-sensitive `strings.TrimPrefix(title, "Blog
post:")`, so the prefix is stripped (then whitespace-trimmed) only when
the title starts with exactly "Blog post:", and otherwise the title is
kept whole apart from whitespace trimming. -/
theorem c8_blog_prefix_strip (title body : List Char)
    (hcontains : goContains (goToLower title) (gs "blog post:") = true)
    (hnocode : BotCode.isCodeRequest title = false) :
    goContains (goToLower title) (gs "blog post") = true ∧
    gs "ai-generated" ∈ (BotBlog.ParseIssueForRequest title body).Tags ∧
    (goStartsWith title (gs "Blog post:") = true →
      (BotBlog.ParseIssueForRequest title body).Title = goTrimSpace (title.drop 10)) ∧
    (goStartsWith title (gs "Blog post:") = false →
      (BotBlog.ParseIssueForRequest title body).Title = goTrimSpace title) := by
  refine ⟨goContains_mono (by decide) hcontains, ?_, ?_, ?_⟩
  · simp [BotBlog.ParseIssueForRequest]
  · intro hpre
    have hlen : (gs "Blog post:").length = 10 := by decide
    simp [BotBlog.ParseIssueForRequest, goTrimPre, hpre, hlen]
  · intro hpre
    simp [BotBlog.ParseIssueForRequest, goTrimPre, hpre]

/-- C8 counterexample: the title "blog post: Go" contains "Blog post:"
up to letter case and no code keyword, so the claim demands the stripped
title "Go"; the code leaves the title untouched because the
case-sensitive prefix check fails. -/
theorem c8_counterexample :
    goContains (goToLower (gs "blog post: Go")) (gs "blog post:") = true ∧
    BotCode.isCodeRequest (gs "blog post: Go") = false ∧
    (BotBlog.ParseIssueForRequest (gs "blog post: Go") (gs "")).Title = gs "blog post: Go" ∧
    ¬ (BotBlog.ParseIssueForRequest (gs "blog post: Go") (gs "")).Title = gs "Go" := by
  decide

/-- C8 witness: the exact-case title "Blog post: Foo" is stripped to
"Foo" and tagged "ai-generated". -/
theorem c8_witness :
    (BotBlog.ParseIssueForRequest (gs "Blog post: Foo") (gs "")).Title = gs "Foo" ∧
    gs "ai-generated" ∈ (BotBlog.ParseIssueForRequest (gs "Blog post: Foo") (gs "")).Tags := by
  have h := c8_blog_prefix_strip (gs "Blog post: Foo") (gs "") (by decide) (by decide)
  refine ⟨?_, h.2.1⟩
  have h3 := h.2.2.1 (by decide)
  rw [h3]
  decide

theorem splitCh_ne_nil (sep : Char) (l : List Char) : splitCh sep l ≠ [] := by
  cases l with
  | nil => simp [splitCh]
  | cons c cs =>
    by_cases h : c = sep
    · simp [splitCh, h]
    · simp only [splitCh, if_neg h]
      cases hcs : splitCh sep cs with
      | nil => simp
      | cons h1 t1 => simp

theorem joinCh_splitCh (sep : Char) (l : List Char) :
    joinCh sep (splitCh sep l) = l := by
  induction l with
  | nil => simp [splitCh, joinCh]
  | cons c cs ih =>
    by_cases h : c = sep
    · subst h
      obtain ⟨h1, t1, hx⟩ := List.exists_cons_of_ne_nil (splitCh_ne_nil c cs)
      rw [hx] at ih
      simp [splitCh, hx, joinCh, ih]
    · obtain ⟨h1, t1, hx⟩ := List.exists_cons_of_ne_nil (splitCh_ne_nil sep cs)
      rw [hx] at ih
      simp only [splitCh, if_neg h, hx]
      cases t1 with
      | nil =>
        simp only [joinCh] at ih ⊢
        rw [ih]
      | cons y t2 =>
        simp only [joinCh] at ih ⊢
        rw [List.cons_append, ih]

theorem updateDraftLines_no_match (ls : List (List Char)) (b : Bool)
    (h : ∀ l ∈ ls, goStartsWith l (gs "is_draft:") = false) :
    BotBlog.updateDraftLines ls b = ls := by
  induction ls with
  | nil => rfl
  | cons l ls ih =>
    have hl := h l (List.mem_cons_self l ls)
    rw [BotBlog.updateDraftLines, if_neg (by simp [hl])]
    rw [ih (fun l2 hm => h l2 (List.mem_cons_of_mem l hm))]

theorem updateDraftLines_first (pre : List (List Char)) (l : List Char)
    (post : List (List Char)) (b : Bool)
    (hpre : ∀ l2 ∈ pre, goStartsWith l2 (gs "is_draft:") = false)
    (hl : goStartsWith l (gs "is_draft:") = true) :
    BotBlog.updateDraftLines (pre ++ l :: post) b =
      pre ++ (gs "is_draft: " ++ boolChars b) :: post := by
  induction pre with
  | nil =>
    simp only [List.nil_append]
    rw [BotBlog.updateDraftLines, if_pos (by simp [hl])]
  | cons p pre ih =>
    have hp := hpre p (List.mem_cons_self p pre)
    simp only [List.cons_append]
    rw [BotBlog.updateDraftLines, if_neg (by simp [hp])]
    rw [ih (fun l2 hm => hpre l2 (List.mem_cons_of_mem p hm))]

/-- C10: `updateDraftStatus` rewrites exactly the first line beginning
with `is_draft:` to `is_draft: <flag>` and reassembles the remaining
lines and separators byte-for-byte; when no line has the prefix the
content is returned unchanged. -/
theorem c10_update_draft_frame (content : List Char) (b : Bool) :
    ((∀ l ∈ splitCh '\n' content, goStartsWith l (gs "is_draft:") = false) →
      BotBlog.updateDraftStatus content b = content) ∧
    (∀ pre l post,
      splitCh '\n' content = pre ++ l :: post →
      (∀ l2 ∈ pre, goStartsWith l2 (gs "is_draft:") = false) →
      goStartsWith l (gs "is_draft:") = true →
      BotBlog.updateDraftStatus content b =
        joinCh '\n' (pre ++ (gs "is_draft: " ++ boolChars b) :: post)) := by
  constructor
  · intro h
    rw [BotBlog.updateDraftStatus, updateDraftLines_no_match _ _ h, joinCh_splitCh]
  · intro pre l post hsplit hpre hl
    rw [BotBlog.updateDraftStatus, hsplit, updateDraftLines_first pre l post b hpre hl]

/-- C10 witness: rewriting the draft flag of a concrete three-line
front matter changes only the `is_draft:` line. -/
theorem c10_witness :
    BotBlog.updateDraftStatus (gs "---\nis_draft: true\nkey: x") false =
      gs "---\nis_draft: false\nkey: x" := by
  have h := (c10_update_draft_frame (gs "---\nis_draft: true\nkey: x") false).2
    [gs "---"] (gs "is_draft: true") [gs "key: x"] (by decide) (by decide) (by decide)
  rw [h]
  decide

theorem draftLoop_fail_no_comment (sp : Bool) (o : Oracle) (fs : List (List Char))
    (h : (draftLoop sp o fs).2 = false) :
    (draftLoop sp o fs).1.all (fun op => !(isUserComment op)) = true := by
  induction fs with
  | nil => simp [draftLoop] at h
  | cons f fs ih =>
    by_cases hf : isBlogMdFile f = true
    · cases hg : o.getFile with
      | none => simp [draftLoop, hf, hg]
      | some pair =>
        obtain ⟨cnt, sha⟩ := pair
        by_cases hcf : o.createFileOk = false
        · simp [draftLoop, hf, hg, hcf, isUserComment]
        · by_cases hdf : o.deleteFileOk = false
          · simp [draftLoop, hf, hg, hcf, hdf, isUserComment]
          · rw [draftLoop] at h
            simp [hf, hg, hcf, hdf] at h
    · have hf2 : isBlogMdFile f = false := by
        cases hval : isBlogMdFile f
        · rfl
        · exact absurd hval hf
      rw [draftLoop] at h ⊢
      simp only [hf2, Bool.false_eq_true, if_false] at h ⊢
      exact ih h

/-- C4 amended: a mutation-step failure while building a blog PR from a
new issue, or while applying a content change to a PR, is surfaced to
the requester as a comment; but a step failure during a draft/publish
lifecycle transition produces no user-facing comment at all — it is only
logged (`src/pkg/bot-blog/handlers.go` lines 151-156). -/
theorem c4_failure_reporting (comment title body : List Char) (o : Oracle) :
    (BotBlog.isDraftStatusChange comment = true →
      (handleDraftStatusChangeRun comment o).2 = false →
      (handlePRCommentRun comment o).all (fun op => !(isUserComment op)) = true) ∧
    (BotBlog.isDraftStatusChange comment = false →
      BotBlog.isChangeRequest comment = true →
      (handleContentChangeRun comment o).2 = false →
      (handlePRCommentRun comment o).any isUserComment = true) ∧
    (goContains (goToLower title) (gs "blog post") = true →
      (createBlogPostPRRun (BotBlog.ParseIssueForRequest title body) o).2 = false →
      (handleNewIssueBlogRun title body o).any isUserComment = true) := by
  refine ⟨?_, ?_, ?_⟩
  · intro hd hfail
    have hstep : (handleDraftStatusChangeRun comment o).1.all (fun op => !(isUserComment op)) = true := by
      cases hlf : o.listFiles with
      | none => simp [handleDraftStatusChangeRun, hlf]
      | some files =>
        have hfail2 : (draftLoop (draftShouldPublish comment) o files).2 = false := by
          simpa [handleDraftStatusChangeRun, hlf] using hfail
        have hall := draftLoop_fail_no_comment (draftShouldPublish comment) o files hfail2
        simpa [handleDraftStatusChangeRun, hlf] using hall
    rw [handlePRCommentRun]
    simp only [List.all_eq_true, Bool.not_eq_true'] at hstep
    simp [hd, isUserComment]
    intro x hx
    have hx2 := hstep x hx
    simpa [isUserComment] using hx2
  · intro hd hc hfail
    simp [handlePRCommentRun, hd, hc, hfail, isUserComment]
  · intro hact hfail
    simp [handleNewIssueBlogRun, hact, hfail, isUserComment]

/-- C4 counterexample: on the PR comment "publish", the file-write step
of the lifecycle transition fails, yet the handler's entire operation
trace is the acknowledgement reaction plus the failed write — no comment
informs the requester, refuting the claim that no step failure is only
logged. -/
theorem c4_counterexample :
    BotBlog.isDraftStatusChange (gs "publish") = true ∧
    (handleDraftStatusChangeRun (gs "publish") oFileFail).2 = false ∧
    handlePRCommentRun (gs "publish") oFileFail =
      [GhOp.reactPRComment 11 (gs "👍"),
       GhOp.createFile (gs "ai-blog-post-7") (gs "pkg/blog_markdown_content/posts/foo.md")
         (gs "is_draft: false") (gs "Move blog post to published")] := by
  decide

/-- C4 witness: concrete instances of all three reporting behaviours —
silence on a failed lifecycle move, an apology comment on a failed
content change, and an apology comment on a failed new-issue build. -/
theorem c4_witness :
    (handlePRCommentRun (gs "publish") oFileFail).all (fun op => !(isUserComment op)) = true ∧
    (handlePRCommentRun (gs "please fix this") oModifyFail).any isUserComment = true ∧
    (handleNewIssueBlogRun (gs "Blog post: X") (gs "b") oFileFail).any isUserComment = true :=
  ⟨(c4_failure_reporting (gs "publish") (gs "t") (gs "b") oFileFail).1
      (by decide) (by decide),
   (c4_failure_reporting (gs "please fix this") (gs "t") (gs "b") oModifyFail).2.1
      (by decide) (by decide) (by decide),
   (c4_failure_reporting (gs "x") (gs "Blog post: X") (gs "b") oFileFail).2.2
      (by decide) (by decide)⟩

theorem takeWhile_append_stop (p : Char → Bool) (a : List Char) (c : Char)
    (b : List Char) (ha : ∀ x ∈ a, p x = true) (hc : p c = false) :
    (a ++ c :: b).takeWhile p = a := by
  induction a with
  | nil => simp [List.takeWhile_cons, hc]
  | cons x xs ih =>
    have hx := ha x (List.mem_cons_self x xs)
    simp [List.takeWhile_cons, hx,
      ih (fun y hy => ha y (List.mem_cons_of_mem x hy))]

theorem goPathBase_concat (xs ys : List Char) (hy : '/' ∉ ys) :
    goPathBase (xs ++ '/' :: ys) = ys := by
  rw [goPathBase, List.reverse_append, List.reverse_cons, List.append_assoc,
    List.singleton_append]
  rw [takeWhile_append_stop _ ys.reverse '/' xs.reverse ?_ (by decide)]
  · exact List.reverse_reverse ys
  · intro x hx
    have hmem : x ∈ ys := List.mem_reverse.mp hx
    have hne : ¬ x = '/' := fun e => hy (e ▸ hmem)
    simp [hne]

theorem goTrimSuf_append (b s : List Char) : goTrimSuf (b ++ s) s = b := by
  have hsuf : goEndsWith (b ++ s) s = true := by
    simp only [goEndsWith, decide_eq_true_eq]
    exact List.suffix_append b s
  rw [goTrimSuf, if_pos hsuf, List.length_append, Nat.add_sub_cancel]
  exact List.take_left b s

/-- C6 amended: a lifecycle directive whose target state matches the
directory the PR file already lies in yields a plan whose write path and
delete path are both the original path — no move to a different path —
but the create-file/delete-file pair is still attempted at that single
path (the loop at `src/pkg/bot-blog/handlers.go` lines 221-261 has no
already-in-place check), rather than being skipped as the claim states. -/
theorem c6_lifecycle_idempotent (base cnt sha comment : List Char) (o : Oracle)
    (sp : Bool)
    (hsp : draftShouldPublish comment = sp)
    (hslash : '/' ∉ base)
    (hlist : o.listFiles = some [blogDirOf sp ++ (base ++ gs ".md")])
    (hget : o.getFile = some (cnt, sha))
    (hcf : o.createFileOk = true)
    (hdf : o.deleteFileOk = true) :
    draftNewFilename (blogDirOf sp ++ (base ++ gs ".md")) sp =
      blogDirOf sp ++ (base ++ gs ".md") ∧
    (handleDraftStatusChangeRun comment o).1 =
      [GhOp.createFile o.prBranch (blogDirOf sp ++ (base ++ gs ".md"))
         (BotBlog.updateDraftStatus cnt (!sp)) (moveMsg sp),
       GhOp.deleteFile o.prBranch (blogDirOf sp ++ (base ++ gs ".md"))
         (gs "Remove old blog post file") sha,
       GhOp.commentPR o.prNum (moveDoneMsg sp)] := by
  have hy : '/' ∉ base ++ gs ".md" := by
    intro hmem
    rcases List.mem_append.mp hmem with hmem | hmem
    · exact hslash hmem
    · exact absurd hmem (by decide)
  cases sp with
  | true =>
    have hold : blogDirOf true ++ (base ++ gs ".md") =
        gs "pkg/blog_markdown_content/posts" ++ '/' :: (base ++ gs ".md") := by
      rw [show blogDirOf true = gs "pkg/blog_markdown_content/posts" ++ ['/'] from by decide,
        List.append_assoc, List.singleton_append]
    have htrim : goTrimSuf (goPathBase (blogDirOf true ++ (base ++ gs ".md"))) (gs ".md") = base := by
      rw [hold, goPathBase_concat _ _ hy]
      exact goTrimSuf_append base (gs ".md")
    have hjoin : goPathJoin [gs "pkg", gs "blog_markdown_content", gs "posts",
        base ++ gs ".md"] = blogDirOf true ++ (base ++ gs ".md") := by
      simp only [goPathJoin, joinCh]
      rw [hold, show gs "pkg/blog_markdown_content/posts" =
        gs "pkg" ++ '/' :: (gs "blog_markdown_content" ++ '/' :: gs "posts") from by decide]
      simp
    have hnew : draftNewFilename (blogDirOf true ++ (base ++ gs ".md")) true =
        blogDirOf true ++ (base ++ gs ".md") := by
      show goPathJoin [gs "pkg", gs "blog_markdown_content", gs "posts",
        goTrimSuf (goPathBase (blogDirOf true ++ (base ++ gs ".md"))) (gs ".md") ++ gs ".md"] =
        blogDirOf true ++ (base ++ gs ".md")
      rw [htrim]
      exact hjoin
    have hmd : isBlogMdFile (blogDirOf true ++ (base ++ gs ".md")) = true := by
      simp only [isBlogMdFile, Bool.and_eq_true, Bool.or_eq_true]
      refine ⟨?_, Or.inl ?_⟩
      · simp only [goEndsWith, decide_eq_true_eq]
        rw [← List.append_assoc]
        exact List.suffix_append _ _
      · simp only [goContains, decide_eq_true_eq]
        rw [hold]
        exact ⟨[], '/' :: (base ++ gs ".md"), by simp⟩
    refine ⟨hnew, ?_⟩
    simp [handleDraftStatusChangeRun, hlist, hsp, draftLoop, hmd, hget, hcf, hdf, hnew]
  | false =>
    have hold : blogDirOf false ++ (base ++ gs ".md") =
        gs "pkg/blog_markdown_content/drafts" ++ '/' :: (base ++ gs ".md") := by
      rw [show blogDirOf false = gs "pkg/blog_markdown_content/drafts" ++ ['/'] from by decide,
        List.append_assoc, List.singleton_append]
    have htrim : goTrimSuf (goPathBase (blogDirOf false ++ (base ++ gs ".md"))) (gs ".md") = base := by
      rw [hold, goPathBase_concat _ _ hy]
      exact goTrimSuf_append base (gs ".md")
    have hjoin : goPathJoin [gs "pkg", gs "blog_markdown_content", gs "drafts",
        base ++ gs ".md"] = blogDirOf false ++ (base ++ gs ".md") := by
      simp only [goPathJoin, joinCh]
      rw [hold, show gs "pkg/blog_markdown_content/drafts" =
        gs "pkg" ++ '/' :: (gs "blog_markdown_content" ++ '/' :: gs "drafts") from by decide]
      simp
    have hnew : draftNewFilename (blogDirOf false ++ (base ++ gs ".md")) false =
        blogDirOf false ++ (base ++ gs ".md") := by
      show goPathJoin [gs "pkg", gs "blog_markdown_content", gs "drafts",
        goTrimSuf (goPathBase (blogDirOf false ++ (base ++ gs ".md"))) (gs ".md") ++ gs ".md"] =
        blogDirOf false ++ (base ++ gs ".md")
      rw [htrim]
      exact hjoin
    have hmd : isBlogMdFile (blogDirOf false ++ (base ++ gs ".md")) = true := by
      simp only [isBlogMdFile, Bool.and_eq_true, Bool.or_eq_true]
      refine ⟨?_, Or.inr ?_⟩
      · simp only [goEndsWith, decide_eq_true_eq]
        rw [← List.append_assoc]
        exact List.suffix_append _ _
      · simp only [goContains, decide_eq_true_eq]
        rw [hold]
        exact ⟨[], '/' :: (base ++ gs ".md"), by simp⟩
    refine ⟨hnew, ?_⟩
    simp [handleDraftStatusChangeRun, hlist, hsp, draftLoop, hmd, hget, hcf, hdf, hnew]

/-- C6 counterexample: for a PR file already under `posts` and the
directive "publish", the handler still attempts the create-file /
delete-file pair (at the unchanged path), refuting the claim that no
such pair is attempted for a file already in the target directory. -/
theorem c6_counterexample :
    draftShouldPublish (gs "publish") = true ∧
    (handleDraftStatusChangeRun (gs "publish") oPostsFile).1 =
      [GhOp.createFile (gs "ai-blog-post-7") (gs "pkg/blog_markdown_content/posts/foo.md")
         (gs "is_draft: false") (gs "Move blog post to published"),
       GhOp.deleteFile (gs "ai-blog-post-7") (gs "pkg/blog_markdown_content/posts/foo.md")
         (gs "Remove old blog post file") (gs "sha1"),
       GhOp.commentPR 3 (gs "✅ Blog post published!")] := by
  decide

/-- C6 witness: for the concrete already-published file `foo.md` and the
directive "publish", the recomputed path equals the original path. -/
theorem c6_witness :
    draftNewFilename (gs "pkg/blog_markdown_content/posts/foo.md") true =
      gs "pkg/blog_markdown_content/posts/foo.md" := by
  have h := (c6_lifecycle_idempotent (gs "foo") (gs "is_draft: true") (gs "sha1")
    (gs "publish") oPostsFile true (by decide) (by decide) (by decide) (by decide)
    (by decide) (by decide)).1
  have e : blogDirOf true ++ (gs "foo" ++ gs ".md") =
      gs "pkg/blog_markdown_content/posts/foo.md" := by decide
  rw [e] at h
  exact h
